import Mathlib

/-!
Verification development for the receipt enrichment pipeline (`parser.py`).

The Python source is shallowly embedded: floats are modelled as exact
rationals (`ℚ`), Python `None` as `Option.none`, fallible external
collaborators (the generative-AI categorizer) as explicit oracle inputs,
and the process-wide JSON configuration as explicit parameters.  String
operations are modelled at ASCII fidelity (the identifiers, labels and
category names the pipeline manipulates are ASCII).
-/

namespace ReceiptParser

/-- Python `round` on a rational: round half to even (banker's rounding). -/
def pyRound (q : ℚ) : ℤ :=
  let f : ℤ := ⌊q⌋
  let r : ℚ := q - f
  if r < 1/2 then f
  else if 1/2 < r then f + 1
  else if f % 2 = 0 then f else f + 1

/-- Python `round(x, 2)`: round to two decimal places, half to even. -/
def round2 (q : ℚ) : ℚ := (pyRound (q * 100) : ℚ) / 100

/-- Python `str.upper()` (character-wise, at ASCII fidelity). -/
def pyUpper (s : String) : String := String.mk (s.data.map Char.toUpper)

/-- Python `str.strip()`: drop leading and trailing whitespace. -/
def pyStrip (s : String) : String :=
  String.mk
    (((s.data.dropWhile Char.isWhitespace).reverse.dropWhile
        Char.isWhitespace).reverse)

/-- Scalar and compound values carried by OCR document fields.
`field v c content` embeds an OCR `DocumentField` object with its `value`
attribute (`none` = Python `None`), its `confidence` attribute (`none` =
attribute absent) and its `content` attribute.  `money a c` embeds a
`CurrencyValue` with numeric `amount` and optional ISO `code`; `vmap`
embeds a plain field dictionary (the shape of a line item's value);
`date s` embeds a date object whose `isoformat()` is `s`. -/
inductive Value : Type where
  | str : String → Value
  | num : ℚ → Value
  | money : ℚ → Option String → Value
  | date : String → Value
  | field : Option Value → Option ℚ → Option String → Value
  | list : List Value → Value
  | vmap : List (String × Value) → Value

/-- Python truthiness of an embedded value. Compound objects
(`CurrencyValue`, `DocumentField`, dates) are always truthy. -/
def Value.truthy : Value → Bool
  | .str s => s ≠ ""
  | .num q => q ≠ 0
  | .money _ _ => true
  | .date _ => true
  | .field _ _ _ => true
  | .list l => ¬ l.isEmpty
  | .vmap m => ¬ m.isEmpty

/-- Python `str()` of an embedded value.  Exact for the string-like scalars
the pipeline renders (`MerchantAddress`, `CountryRegion`, dates); compound
objects are given a fixed benign rendering which no pipeline path inspects. -/
def Value.pyStr : Value → String
  | .str s => s
  | .date s => s
  | .num q => toString q
  | .money a _ => toString a
  | .field _ _ _ => ""
  | .list _ => ""
  | .vmap _ => ""

/-- The `date.isoformat()` rendering applied by the orchestrator to a truthy
`TransactionDate` value. -/
def Value.pyIsoformat : Value → String
  | .date s => s
  | v => v.pyStr

/-- An OCR document: its `fields` mapping (each entry a `Value.field`). -/
def Doc : Type := List (String × Value)

/-- Embedding of `fields.get(name)` / `dict.get(name)`: first binding of `name`. -/
def lookupField (fs : List (String × Value)) (name : String) : Option Value :=
  (fs.find? (fun p => p.1 == name)).map (fun p => p.2)

/-- The two field-source shapes accepted by `get_field_value`
(an object exposing `.fields`, or a plain dict), and `other` for any
value of neither shape (every lookup on it misses). -/
inductive FieldSource : Type where
  | doc : List (String × Value) → FieldSource
  | dict : List (String × Value) → FieldSource
  | other : FieldSource

def sourceGet : FieldSource → String → Option Value
  | .doc fs, n => lookupField fs n
  | .dict fs, n => lookupField fs n
  | .other, _ => none

/-- Embedding of `get_field_value(doc, field_name, value_type)`:
returns `(value, confidence)`; absent field (or a found entry that is not
a `DocumentField`) yields `(None, 0.0)`.  For `value_type = "amount"` a
compound monetary value is unwrapped to its numeric amount.  A present
field's confidence is `round(conf * 100, 2)` when the attribute exists,
else `100.0`. -/
def get_field_value (src : FieldSource) (field_name : String)
    (value_type : String) : Option Value × Option ℚ :=
  match sourceGet src field_name with
  | some (.field v conf _) =>
    let v2 : Option Value :=
      if value_type = "amount" then
        match v with
        | some (.money a _) => some (.num a)
        | w => w
      else v
    let c : ℚ :=
      match conf with
      | some c0 => round2 (c0 * 100)
      | none => 100
    (v2, some c)
  | _ => (none, some 0)

/-- The character class kept by `re.sub(r'[^A-Z0-9]', '', ...)`. -/
def isAZ09 (c : Char) : Bool := ('A' ≤ c ∧ c ≤ 'Z') ∨ ('0' ≤ c ∧ c ≤ '9')

/-- The strip-and-uppercase step of `sanitize_gstin`:
`re.sub(r'[^A-Z0-9]', '', str(candidate).upper())`. -/
def gstinStrip (candidate : String) : List Char :=
  (pyUpper candidate).data.filter isAZ09

/-- Embedding of `sanitize_gstin(candidate)`: empty candidate is falsy and
rejected; otherwise strip/upper-case, reject unless exactly 15 characters
remain, and force-correct a `'2'` at index 13 to `'Z'`. -/
def sanitize_gstin (candidate : String) : Option String :=
  if candidate = "" then none
  else
    let clean := gstinStrip candidate
    if clean.length ≠ 15 then none
    else
      let chars := if clean.getD 13 'A' = '2' then clean.set 13 'Z' else clean
      some (String.mk chars)

/-- Separator class `[:\.\-\s]` of the label patterns. -/
def isSep (c : Char) : Bool := c = ':' ∨ c = '.' ∨ c = '-' ∨ c.isWhitespace

/-- Case-insensitive alphanumeric class `[A-Z0-9]` under the regex
`(?i)` flag. -/
def isAlnumCI (c : Char) : Bool := isAZ09 c.toUpper

/-- Case-insensitive literal prefix match; on success returns the rest
of the input. -/
def ciHasPrefix : List Char → List Char → Option (List Char)
  | [], s => some s
  | _ :: _, [] => none
  | p :: ps, c :: cs => if c.toUpper = p then ciHasPrefix ps cs else none

/-- The tail `[:\.\-\s]*([A-Z0-9]{15})` of the labeled GSTIN pattern:
skip separators greedily, then capture exactly 15 alphanumerics. -/
def take15Alnum (s : List Char) : Option (List Char) :=
  let rest := s.dropWhile isSep
  let tok := rest.take 15
  if tok.length = 15 ∧ tok.all isAlnumCI then some tok else none

/-- The `GST\s?No\.?` alternative of the label pattern (the optional dot
is absorbed by the following separator class, which contains `'.'`). -/
def gstNoAlt (s : List Char) : Option (List Char) :=
  match ciHasPrefix ['G', 'S', 'T'] s with
  | some rest =>
    let rest2 := match rest with
      | c :: cs => if c.isWhitespace then cs else c :: cs
      | [] => []
    match ciHasPrefix ['N', 'O'] rest2 with
    | some rest3 => take15Alnum rest3
    | none => none
  | none => none

/-- One anchoring position of
`(?i)(?:GSTIN|GST\s?No\.?)[:\.\-\s]*([A-Z0-9]{15})`:
the `GSTIN` alternative is tried first, with backtracking into the
`GST\s?No\.?` alternative when its continuation fails. -/
def matchLabelHere (s : List Char) : Option (List Char) :=
  match ciHasPrefix ['G', 'S', 'T', 'I', 'N'] s with
  | some rest =>
    match take15Alnum rest with
    | some tok => some tok
    | none => gstNoAlt s
  | none => gstNoAlt s

/-- The `re.search` scan for the labeled GSTIN pattern: leftmost anchoring
position wins; returns the captured 15-character token. -/
def labelSearch : List Char → Option (List Char)
  | [] => matchLabelHere []
  | c :: rest =>
    match matchLabelHere (c :: rest) with
    | some tok => some tok
    | none => labelSearch rest

/-- Word-character class `\w` for the `\b` boundaries. -/
def isWordChar (c : Char) : Bool :=
  ('A' ≤ c ∧ c ≤ 'Z') ∨ ('a' ≤ c ∧ c ≤ 'z') ∨ ('0' ≤ c ∧ c ≤ '9') ∨ c = '_'

def isUpperAZ (c : Char) : Bool := 'A' ≤ c ∧ c ≤ 'Z'
def isDigit09 (c : Char) : Bool := '0' ≤ c ∧ c ≤ '9'

/-- Shape `\d{2}[A-Z]{5}\d{4}[A-Z]{1}[A-Z0-9]{2}` (14 characters). -/
def structShape (l : List Char) : Bool :=
  (l.take 2).all isDigit09 ∧
  ((l.drop 2).take 5).all isUpperAZ ∧
  ((l.drop 7).take 4).all isDigit09 ∧
  ((l.drop 11).take 1).all isUpperAZ ∧
  ((l.drop 12).take 2).all (fun c => isUpperAZ c ∨ isDigit09 c)

/-- One anchoring position of the structural pattern: the 14-character
shape followed by a `\b` (next character not a word character, or end). -/
def matchStructHere (s : List Char) : Option (List Char) :=
  let tok := s.take 14
  let nextOK : Bool := match s.drop 14 with
    | [] => true
    | c :: _ => ¬ isWordChar c
  if tok.length == 14 && structShape tok && nextOK then some tok else none

/-- The `re.search` scan for `\b(\d{2}[A-Z]{5}\d{4}[A-Z]{1}[A-Z0-9]{2})\b`:
the leading `\b` requires the previous character (when any) to be a
non-word character. -/
def structSearchAux : Option Char → List Char → Option (List Char)
  | prev, s =>
    let bOK : Bool := match prev with
      | none => true
      | some c => ¬ isWordChar c
    match (if bOK then matchStructHere s else none) with
    | some tok => some tok
    | none =>
      match s with
      | [] => none
      | c :: rest => structSearchAux (some c) rest

def structSearch (s : List Char) : Option (List Char) :=
  structSearchAux none s

/-- The digit tail `(\d{4,8})` of the HSN pattern: greedily up to 8
digits, at least 4. -/
def hsnDigits (s : List Char) : Option (List Char) :=
  let ds := (s.takeWhile isDigit09).take 8
  if 4 ≤ ds.length then some ds else none

/-- One anchoring position of
`(?i)HSN(?:[:\.\-\s]*CODE)?[:\.\-\s]*(\d{4,8})`, with backtracking out
of the optional `CODE` group when its continuation fails. -/
def matchHsnHere (s : List Char) : Option (List Char) :=
  match ciHasPrefix ['H', 'S', 'N'] s with
  | none => none
  | some rest =>
    let withCode : Option (List Char) :=
      match ciHasPrefix ['C', 'O', 'D', 'E'] (rest.dropWhile isSep) with
      | some rest2 => hsnDigits (rest2.dropWhile isSep)
      | none => none
    match withCode with
    | some ds => some ds
    | none => hsnDigits (rest.dropWhile isSep)

def hsnSearch : List Char → Option (List Char)
  | [] => matchHsnHere []
  | c :: rest =>
    match matchHsnHere (c :: rest) with
    | some ds => some ds
    | none => hsnSearch rest

/-- The labeled route: `re.search` for the label pattern, sanitized. -/
def gstinFromLabel (s : List Char) : Option String :=
  match labelSearch s with
  | some tok => sanitize_gstin (String.mk tok)
  | none => none

/-- Python truthiness of the labeled result (`if not gstin`). -/
def gstinTruthy : Option String → Bool
  | some g => g ≠ ""
  | none => false

/-- The structural fallback: on a match its sanitization overwrites the
result (even when sanitization fails); with no match the labeled result
stands. -/
def gstinFromStruct (s : List Char) (g0 : Option String) : Option String :=
  match structSearch s with
  | some tok => sanitize_gstin (String.mk tok)
  | none => g0

/-- The GSTIN component of `extract_custom_fields`: the labeled match is
tried first; only when it leaves no truthy identifier is the structural
pattern searched. -/
def gstinFinal (s : List Char) : Option String :=
  if gstinTruthy (gstinFromLabel s) then gstinFromLabel s
  else gstinFromStruct s (gstinFromLabel s)

/-- The HSN component of `extract_custom_fields`. -/
def hsnFinal (s : List Char) : Option String :=
  match hsnSearch s with
  | some ds => some (String.mk ds)
  | none => none

/-- Embedding of `extract_custom_fields(all_text)`: the GSTIN priority
chain and the independent HSN search. -/
def extract_custom_fields (all_text : String) :
    Option String × Option String :=
  (gstinFinal all_text.data, hsnFinal all_text.data)

/-- Contiguous-substring test: Python's `needle in hay`. -/
def containsSub (hay needle : List Char) : Bool :=
  match hay with
  | [] => needle.isEmpty
  | _ :: rest => needle.isPrefixOf hay || containsSub rest needle

/-- The `CURRENCY_MAP` table in its Python insertion order. -/
def CURRENCY_MAP : List (String × String) :=
  [("INR", "₹"), ("USD", "$"), ("EUR", "€"), ("GBP", "£"),
   ("CAD", "$"), ("AUD", "$"), ("AED", "د.إ")]

/-- The `COUNTRY_MAP` table in its Python insertion order. -/
def COUNTRY_MAP : List (String × String) :=
  [("IND", "₹"), ("USA", "$"), ("GBR", "£"), ("ARE", "د.إ")]

def mapLookup (m : List (String × String)) (k : String) : Option String :=
  (m.find? (fun p => p.1 == k)).map (fun p => p.2)

/-- Priority 1 of `determine_currency`: an explicit (truthy) ISO code on
the `Total` field's value, looked up in `CURRENCY_MAP` after
upper-casing.  Guarded by the field being present with a truthy value. -/
def currencyFromTotalCode (doc : Doc) : Option String :=
  match lookupField doc "Total" with
  | some (.field (some v) _ _) =>
    if v.truthy then
      match v with
      | .money _ (some code) =>
        if code ≠ "" then mapLookup CURRENCY_MAP (pyUpper code) else none
      | _ => none
    else none
  | _ => none

/-- Priority 2 of `determine_currency`: the first `CURRENCY_MAP` key (in
insertion order) occurring as a substring of the `Total` field's
upper-cased raw content.  Guarded by the same field-present-and-truthy
condition as priority 1. -/
def currencyFromTotalContent (doc : Doc) : Option String :=
  match lookupField doc "Total" with
  | some (.field (some v) _ content) =>
    if v.truthy then
      let cu := pyUpper (content.getD "")
      (CURRENCY_MAP.find? (fun kv => containsSub cu.data kv.1.data)).map
        (fun kv => kv.2)
    else none
  | _ => none

/-- Priority 3: a truthy `CountryRegion` value, rendered, upper-cased and
stripped, looked up in `COUNTRY_MAP`. -/
def currencyFromCountry (doc : Doc) : Option String :=
  match lookupField doc "CountryRegion" with
  | some (.field (some v) _ _) =>
    if v.truthy then mapLookup COUNTRY_MAP (pyStrip (pyUpper v.pyStr)) else none
  | _ => none

/-- Priority 4: a truthy 15-character GSTIN whose first two characters
form a digit string (`gstin[:2].isdigit()`). -/
def currencyFromGstin (gstin : Option String) : Option String :=
  match gstin with
  | some g =>
    if g ≠ "" ∧ g.length = 15 ∧
        ((g.data.take 2).all isDigit09 ∧ g.data.take 2 ≠ []) then
      some "₹"
    else none
  | none => none

/-- Priority 5: the substring `"INDIA"` or `"IND"` inside the upper-cased
truthy `MerchantAddress` value. -/
def currencyFromAddress (doc : Doc) : Option String :=
  match lookupField doc "MerchantAddress" with
  | some (.field (some v) _ _) =>
    if v.truthy then
      let addr := pyUpper v.pyStr
      if containsSub addr.data "INDIA".data ∨ containsSub addr.data "IND".data then
        some "₹"
      else none
    else none
  | _ => none

/-- Embedding of `determine_currency(doc, gstin)`: the five prioritized
sources in order, each early-returning on success, with `"$"` as the
final default. -/
def determine_currency (doc : Doc) (gstin : Option String) : String :=
  match currencyFromTotalCode doc with
  | some sym => sym
  | none =>
    match currencyFromTotalContent doc with
    | some sym => sym
    | none =>
      match currencyFromCountry doc with
      | some sym => sym
      | none =>
        match currencyFromGstin gstin with
        | some sym => sym
        | none =>
          match currencyFromAddress doc with
          | some sym => sym
          | none => "$"

/-- One entry of the `items` list assembled by the orchestrator. -/
structure ItemRec : Type where
  description : Option Value × Option ℚ
  total_price : Option Value × Option ℚ
  quantity : Option Value × Option ℚ

/-- The record assembled by `analyze_receipt` (spec: `ParsedReceipt`). -/
structure ParsedData : Type where
  merchant_name : Option Value × Option ℚ
  transaction_date : Option Value × Option ℚ
  total : Option Value × Option ℚ
  tax_amount : Option Value × Option ℚ
  items : List ItemRec
  gstin : Option String × Option ℚ
  hsn : Option String × Option ℚ
  currency : String
  overall_confidence : ℤ
  category : String
  status : String

/-- The field-name → `(value, confidence)` view of the record that the
confidence aggregator indexes by configured weight names.  It carries
exactly the pair-valued entries of the Python dict (the non-pair entries
`items`, `currency`, `overall_confidence`, `category`, `status` are not
meaningful aggregation operands). -/
def ParsedData.fieldMap (d : ParsedData) :
    List (String × (Option Value × Option ℚ)) :=
  [("merchant_name", d.merchant_name),
   ("transaction_date", d.transaction_date),
   ("total", d.total),
   ("tax_amount", d.tax_amount),
   ("gstin", (d.gstin.1.map Value.str, d.gstin.2)),
   ("hsn", (d.hsn.1.map Value.str, d.hsn.2))]

/-- The read-only configuration of `config.json` (`APP_CONFIG`). -/
structure Config : Type where
  confidence_threshold : ℚ
  confidence_weights : List (String × ℚ)

/-- The built-in `APP_CONFIG` default used when `config.json` is missing
or invalid. -/
def APP_CONFIG_default : Config :=
  { confidence_threshold := 90,
    confidence_weights :=
      [("total", 2/5), ("merchant_name", 1/4),
       ("gstin", 1/5), ("transaction_date", 3/20)] }

/-- The built-in `VALID_CATEGORIES` default. -/
def VALID_CATEGORIES_default : List String :=
  ["Food Cost", "Utilities", "Maintenance", "Uncategorized"]

/-- Embedding of `str(x or "")` applied to a stored field value. -/
def valueOrEmpty : Option Value → String
  | some v => if v.truthy then v.pyStr else ""
  | none => ""

/-- The rule-override scan of `categorize_receipt`: first configured
category (in rule-file order) one of whose keywords, upper-cased, is a
substring of the upper-cased merchant name. -/
def ruleMatch : List (String × List String) → String → Option String
  | [], _ => none
  | (cat, kws) :: rest, m =>
    if kws.any (fun k => containsSub m.data (pyUpper k).data) then cat
    else ruleMatch rest m

/-- The merchant-name key the categorizer matches rules against. -/
def merchantKey (data : ParsedData) : String :=
  pyUpper (valueOrEmpty data.merchant_name.1)

/-- The reply clean-up `response.text.strip().replace('"', '')`:
strip surrounding whitespace, then delete every double-quote character. -/
def cleanReply (t : String) : String :=
  String.mk ((pyStrip t).data.filter (fun ch => ch ≠ '"'))

/-- The AI leg of `categorize_receipt`.  The generative model is an
oracle input: `none` embeds `GEMINI_MODEL is None`, `some (.error _)`
a raising `generate_content` call, and `some (.ok t)` a reply with text
`t`.  The reply is stripped, its double quotes removed, and accepted
only on exact membership in the valid-category list. -/
def aiCategorize (valid : List String) (ai : Option (Except Unit String)) :
    String :=
  match ai with
  | none => "Uncategorized"
  | some (.error _) => "Uncategorized"
  | some (.ok t) =>
    let c := cleanReply t
    if valid.contains c then c else "Uncategorized"

/-- Embedding of `categorize_receipt(data)`: rule overrides first, then
the AI oracle.  The prompt assembled from merchant name and line items
only feeds the oracle and cannot affect which branch is returned, so it
is not materialized. -/
def categorize_receipt (rules : List (String × List String))
    (valid : List String) (ai : Option (Except Unit String))
    (data : ParsedData) : String :=
  match ruleMatch rules (merchantKey data) with
  | some cat => cat
  | none => aiCategorize valid ai

/-- One step of the weighted-average accumulation in
`calculate_overall_confidence`: a configured field found in the record
(dict entries are 2-tuples, hence always truthy) whose confidence slot
is not `None` contributes `confidence * weight` and `weight`. -/
def confStep (data : List (String × (Option Value × Option ℚ)))
    (acc : ℚ × ℚ) (fw : String × ℚ) : ℚ × ℚ :=
  match (data.find? (fun p => p.1 == fw.1)).map (fun p => p.2) with
  | some (_, some c) => (acc.1 + c * fw.2, acc.2 + fw.2)
  | _ => acc

/-- Embedding of `calculate_overall_confidence(data)` over an explicit
weight configuration: weighted scores and applied weights are accumulated
over the configured fields in order; a zero applied weight yields 0,
otherwise the rounded normalized score. -/
def calculate_overall_confidence (weights : List (String × ℚ))
    (data : List (String × (Option Value × Option ℚ))) : ℤ :=
  let acc := weights.foldl (confStep data) (0, 0)
  if acc.2 = 0 then 0 else pyRound (acc.1 / acc.2)

/-- Embedding of `(gstin_regex, None) if gstin_regex else (None, None)` (and the same
shape for the HSN result). -/
def regexPair (r : Option String) : Option String × Option ℚ :=
  match r with
  | some g => if g = "" then (none, none) else (some g, none)
  | none => (none, none)

/-- The body of the merchant-address fallback: re-run the extractor on
the rendered truthy `MerchantAddress` value and store a found (truthy)
identifier with the fixed lower confidence 85; otherwise leave the
record's gstin entry unchanged. -/
def gstinAddrSearch (doc : Doc) (g0 : Option String × Option ℚ) :
    Option String × Option ℚ :=
  match lookupField doc "MerchantAddress" with
  | some (.field (some v) _ _) =>
    if v.truthy then
      match (extract_custom_fields v.pyStr).1 with
      | some g => if g = "" then g0 else (some g, some 85)
      | none => g0
    else g0
  | _ => g0

/-- The merchant-address fallback for the GSTIN (`if not
parsed_data["gstin"][0]`): when the record holds no truthy GSTIN, run
`gstinAddrSearch`. -/
def gstinFallback (doc : Doc) (g0 : Option String × Option ℚ) :
    Option String × Option ℚ :=
  match g0.1 with
  | some g => if g = "" then gstinAddrSearch doc g0 else g0
  | none => gstinAddrSearch doc g0

/-- The `TransactionDate` finalization:
`(date_val.isoformat(), date_conf) if date_val else (None, None)`. -/
def transactionDatePair (doc : Doc) : Option Value × Option ℚ :=
  match get_field_value (.doc doc) "TransactionDate" "string" with
  | (some v, c) =>
    if v.truthy then (some (.str v.pyIsoformat), c) else (none, none)
  | (none, _) => (none, none)

/-- The source a line item's `value` presents to `get_field_value`
(a dict when the item is a field wrapping a mapping, otherwise neither
accepted shape). -/
def itemSource : Value → FieldSource
  | .field (some (.vmap m)) _ _ => .dict m
  | _ => .other

/-- The `Items` loop of the orchestrator.  Iterating the truthy `Items`
value (a list in the OCR contract; Python would raise on any other
truthy shape, which this embedding does not model). -/
def extractItems (doc : Doc) : List ItemRec :=
  match lookupField doc "Items" with
  | some (.field (some v) _ _) =>
    if v.truthy then
      match v with
      | .list items =>
        items.map (fun it =>
          { description := get_field_value (itemSource it) "Description" "string",
            total_price := get_field_value (itemSource it) "TotalPrice" "amount",
            quantity := get_field_value (itemSource it) "Quantity" "string" })
      | _ => []
    else []
  | _ => []

/-- The initial `parsed_data` dict of `analyze_receipt`. -/
def initParsed : ParsedData :=
  { merchant_name := (none, none), transaction_date := (none, none),
    total := (none, none), tax_amount := (none, none), items := [],
    gstin := (none, none), hsn := (none, none), currency := "$",
    overall_confidence := 0, category := "Uncategorized",
    status := "Needs Review" }

/-- An OCR analysis result: the analyzed documents and the full
recognized text (`receipts.content`). -/
structure OCRResult : Type where
  documents : List Doc
  content : String

/-- Stages 1–2 of the orchestrator on the first document: standard-field
extraction, regex tax-ID extraction with the address fallback, and
currency resolution. -/
def extractRecord (doc : Doc) (content : String) : ParsedData :=
  let regexed := extract_custom_fields content
  let gstin := gstinFallback doc (regexPair regexed.1)
  { merchant_name := get_field_value (.doc doc) "MerchantName" "string",
    transaction_date := transactionDatePair doc,
    total := get_field_value (.doc doc) "Total" "amount",
    tax_amount := get_field_value (.doc doc) "TotalTax" "amount",
    items := extractItems doc,
    gstin := gstin,
    hsn := regexPair regexed.2,
    currency := determine_currency doc gstin.1,
    overall_confidence := 0, category := "Uncategorized",
    status := "Needs Review" }

/-- Embedding of `analyze_receipt` from the point the OCR result is in
hand (the upload and network call are I/O plumbing): an empty document
list returns the initial record unchanged; otherwise the first document
is extracted and enriched, confidence aggregated, the record categorized
and the status derived from the configured threshold. -/
def analyze_receipt (cfg : Config) (rules : List (String × List String))
    (valid : List String) (ai : Option (Except Unit String))
    (receipts : OCRResult) : ParsedData :=
  match receipts.documents with
  | [] => initParsed
  | doc :: _ =>
    let d1 := extractRecord doc receipts.content
    let conf := calculate_overall_confidence cfg.confidence_weights d1.fieldMap
    { d1 with
      overall_confidence := conf,
      category := categorize_receipt rules valid ai d1,
      status :=
        if (conf : ℚ) ≥ cfg.confidence_threshold then "Approved"
        else "Needs Review" }

/-- Whether a configured weight entry names a record field whose
confidence slot is not `None` (the inclusion condition of the weighted
average: dict entries are 2-tuples and hence always truthy). -/
def usableField (data : List (String × (Option Value × Option ℚ)))
    (fw : String × ℚ) : Bool :=
  match (data.find? (fun p => p.1 == fw.1)).map (fun p => p.2) with
  | some (_, some _) => true
  | _ => false

/-- The confidence a weight entry reads from the record (0 when unused;
only consulted on fields passing `usableField`). -/
def confOf (data : List (String × (Option Value × Option ℚ)))
    (name : String) : ℚ :=
  match (data.find? (fun p => p.1 == name)).map (fun p => p.2) with
  | some (_, some c) => c
  | _ => 0

/-- The aggregation contract stated by the specification (§4.4), written
from its words for comparison with `calculate_overall_confidence`: both
sums range over exactly the configured weighted field names present in
the record with a non-absent confidence; the score is the rounded
`sum(confidence*weight) / sum(weight)`, and 0 when no such field exists. -/
def aggregate_spec (weights : List (String × ℚ))
    (data : List (String × (Option Value × Option ℚ))) : ℤ :=
  let inc := weights.filter (usableField data)
  if inc.isEmpty then 0
  else
    pyRound ((inc.map (fun fw => confOf data fw.1 * fw.2)).sum /
      (inc.map (fun fw => fw.2)).sum)

/-! Concrete fixtures used by witnesses and counterexamples. -/

/-- A document whose `Total` carries an explicit `INR` currency code
while the merchant address names the USA. -/
def exDocINR : Doc :=
  [("Total", Value.field (some (.money 4452 (some "INR"))) (some (49/50))
      (some "INR 4452")),
   ("MerchantAddress", Value.field
      (some (.str "42 Liberty Ave, Springfield, USA")) (some (9/10)) none)]

/-- A document with no GSTIN in the recognized text but a labeled GSTIN
(with the known `2`-for-`Z` misread at index 13) inside the merchant
address. -/
def exDocAddr : Doc :=
  [("MerchantName", Value.field (some (.str "JC TRADING")) (some 1) none),
   ("MerchantAddress", Value.field
      (some (.str "12 Road GSTIN: 29ABCDE1234FZ25 India")) (some (9/10)) none)]

def exAddrOCR : OCRResult :=
  { documents := [exDocAddr], content := "no tax id here" }

/-- A document carrying only a `Total` field (confidence 0.9). -/
def exDocTot : Doc :=
  [("Total", Value.field (some (.money 45 none)) (some (9/10)) none)]

def exTotOCR : OCRResult := { documents := [exDocTot], content := "" }

/-- An OCR result with no documents. -/
def exEmptyOCR : OCRResult := { documents := [], content := "" }

/-- An OCR result whose single document has no fields at all. -/
def exBareDocOCR : OCRResult := { documents := [[]], content := "" }

/-- A record whose merchant name matches an `UBER` keyword rule. -/
def exUberRecord : ParsedData :=
  { initParsed with merchant_name := (some (.str "Uber ride"), some 98) }

/-- A record whose merchant name is `City Power Co`. -/
def exCityPowerRecord : ParsedData :=
  { initParsed with merchant_name := (some (.str "City Power Co"), some 98) }

/-- A configuration with the threshold lowered to 0. -/
def exZeroThresholdConfig : Config :=
  { confidence_threshold := 0, confidence_weights := [] }

/-! Theorems. -/

lemma pyRound_zero : pyRound 0 = 0 := by norm_num [pyRound]

/-- Claim C2: `sanitize_gstin` strips all non-alphanumeric characters and
upper-cases the remainder (the `gstinStrip` step); it returns absent
whenever the stripped result is not exactly 15 characters; when it is 15
characters, the character at zero-based index 13 is replaced by `'Z'`
exactly when it is the digit `'2'`, and every other position is returned
unchanged. -/
theorem sanitize_gstin_spec (candidate : String) :
    ((gstinStrip candidate).length ≠ 15 → sanitize_gstin candidate = none) ∧
    ((gstinStrip candidate).length = 15 →
      ∃ out : List Char,
        sanitize_gstin candidate = some (String.mk out) ∧
        out.length = 15 ∧
        (∀ i : ℕ, i ≠ 13 → out.getD i 'A' = (gstinStrip candidate).getD i 'A') ∧
        out.getD 13 'A' =
          (if (gstinStrip candidate).getD 13 'A' = '2' then 'Z'
           else (gstinStrip candidate).getD 13 'A')) := by
  constructor
  · intro hlen
    unfold sanitize_gstin
    by_cases hc : candidate = ""
    · simp [hc]
    · simp [hc, hlen]
  · intro hlen
    have hc : candidate ≠ "" := by
      intro hc
      rw [hc] at hlen
      simp [gstinStrip, pyUpper] at hlen
    have h13 : (13 : ℕ) < (gstinStrip candidate).length := by omega
    unfold sanitize_gstin
    simp only [hc, if_false, hlen, ite_false, if_neg (by simp : ¬ (15 : ℕ) ≠ 15)]
    by_cases h2 : (gstinStrip candidate).getD 13 'A' = '2'
    · refine ⟨(gstinStrip candidate).set 13 'Z', by rw [if_pos h2], by simp [hlen],
        ?_, ?_⟩
      · intro i hi
        simp [List.getD_eq_getElem?_getD, List.getElem?_set_ne (Ne.symm hi)]
      · rw [if_pos h2]
        simp [List.getD_eq_getElem?_getD, List.getElem?_set_self h13]
    · exact ⟨gstinStrip candidate, by rw [if_neg h2], hlen, fun i _ => rfl,
        by rw [if_neg h2]⟩

/-- Closed instance of `sanitize_gstin_spec`: a candidate whose stripped
form is 15 characters with a `'2'` at index 13. -/
theorem sanitize_gstin_spec_witness :
    ∃ out : List Char,
      sanitize_gstin "29abcde-1234fz25" = some (String.mk out) ∧
      out.length = 15 ∧
      (∀ i : ℕ, i ≠ 13 →
        out.getD i 'A' = (gstinStrip "29abcde-1234fz25").getD i 'A') ∧
      out.getD 13 'A' =
        (if (gstinStrip "29abcde-1234fz25").getD 13 'A' = '2' then 'Z'
         else (gstinStrip "29abcde-1234fz25").getD 13 'A') :=
  (sanitize_gstin_spec "29abcde-1234fz25").2 (by decide)

lemma confStep_eq (data : List (String × (Option Value × Option ℚ)))
    (acc : ℚ × ℚ) (fw : String × ℚ) :
    confStep data acc fw =
      if usableField data fw then
        (acc.1 + confOf data fw.1 * fw.2, acc.2 + fw.2)
      else acc := by
  unfold confStep usableField confOf
  rcases h : (data.find? (fun p => p.1 == fw.1)).map (fun p => p.2) with _ | ⟨v, c⟩
  · simp [h]
  · rcases c with _ | c <;> simp [h]

lemma confStep_fold (data : List (String × (Option Value × Option ℚ)))
    (w : List (String × ℚ)) : ∀ acc : ℚ × ℚ,
    w.foldl (confStep data) acc =
      (acc.1 + ((w.filter (usableField data)).map
          (fun fw => confOf data fw.1 * fw.2)).sum,
       acc.2 + ((w.filter (usableField data)).map (fun fw => fw.2)).sum) := by
  induction w with
  | nil => intro acc; simp
  | cons fw rest ih =>
    intro acc
    rw [List.foldl_cons, confStep_eq, List.filter_cons]
    by_cases hu : usableField data fw
    · simp only [hu, if_true, ih, List.map_cons, List.sum_cons, Prod.mk.injEq]
      exact ⟨by ring, by ring⟩
    · simp only [hu, if_false, ih, Bool.false_eq_true]

unseal Rat.add Rat.mul Rat.inv Rat.sub in
/-- Claim C4: `calculate_overall_confidence` computes exactly the
specification's weighted-average formula (`aggregate_spec`, written from
the spec's words), is invariant under appending a zero-weight field, and
yields 92 on the spec's concrete example. -/
theorem overall_confidence_weighted_average :
    (∀ weights data, calculate_overall_confidence weights data =
      aggregate_spec weights data) ∧
    (∀ weights data name,
      calculate_overall_confidence (weights ++ [(name, 0)]) data =
        calculate_overall_confidence weights data) ∧
    calculate_overall_confidence
      [("total", 2/5), ("merchant_name", 3/5)]
      [("total", (some (.num 450), some 80)),
       ("merchant_name", (some (.str "JC TRADING"), some 100))] = 92 := by
  refine ⟨?_, ?_, by decide⟩
  · intro weights data
    unfold calculate_overall_confidence aggregate_spec
    rw [confStep_fold]
    simp only [zero_add]
    rcases hinc : weights.filter (usableField data) with _ | ⟨fw, rest⟩
    · simp
    · simp only [List.isEmpty_cons, if_false, Bool.false_eq_true]
      by_cases hz :
          ((fw :: rest).map (fun fw : String × ℚ => fw.2)).sum = 0
      · rw [if_pos hz, hz, div_zero, pyRound_zero]
      · rw [if_neg hz]
  · intro weights data name
    unfold calculate_overall_confidence
    rw [List.foldl_append, List.foldl_cons, List.foldl_nil, confStep_eq]
    by_cases hu : usableField data (name, 0)
    · simp [hu]
    · simp [hu]

/-- Claim C1: for every OCR result containing no documents,
`analyze_receipt` returns (totally, without failure) a record in which
every extracted field is absent, the currency is the default symbol,
the overall confidence is 0, the category is the default sentinel
`"Uncategorized"`, and the status is `"Needs Review"`. -/
theorem analyze_empty_documents_defaults (cfg : Config)
    (rules : List (String × List String)) (valid : List String)
    (ai : Option (Except Unit String)) (r : OCRResult)
    (h : r.documents = []) :
    (analyze_receipt cfg rules valid ai r).merchant_name = (none, none) ∧
    (analyze_receipt cfg rules valid ai r).transaction_date = (none, none) ∧
    (analyze_receipt cfg rules valid ai r).total = (none, none) ∧
    (analyze_receipt cfg rules valid ai r).tax_amount = (none, none) ∧
    (analyze_receipt cfg rules valid ai r).items = [] ∧
    (analyze_receipt cfg rules valid ai r).gstin = (none, none) ∧
    (analyze_receipt cfg rules valid ai r).hsn = (none, none) ∧
    (analyze_receipt cfg rules valid ai r).currency = "$" ∧
    (analyze_receipt cfg rules valid ai r).overall_confidence = 0 ∧
    (analyze_receipt cfg rules valid ai r).category = "Uncategorized" ∧
    (analyze_receipt cfg rules valid ai r).status = "Needs Review" := by
  obtain ⟨docs, content⟩ := r
  simp only at h
  subst h
  exact ⟨rfl, rfl, rfl, rfl, rfl, rfl, rfl, rfl, rfl, rfl, rfl⟩

/-- Closed instance of `analyze_empty_documents_defaults` on an empty
OCR result with the default configuration. -/
theorem analyze_empty_documents_defaults_witness :
    (analyze_receipt APP_CONFIG_default [] VALID_CATEGORIES_default none
        exEmptyOCR).merchant_name = (none, none) ∧
    (analyze_receipt APP_CONFIG_default [] VALID_CATEGORIES_default none
        exEmptyOCR).transaction_date = (none, none) ∧
    (analyze_receipt APP_CONFIG_default [] VALID_CATEGORIES_default none
        exEmptyOCR).total = (none, none) ∧
    (analyze_receipt APP_CONFIG_default [] VALID_CATEGORIES_default none
        exEmptyOCR).tax_amount = (none, none) ∧
    (analyze_receipt APP_CONFIG_default [] VALID_CATEGORIES_default none
        exEmptyOCR).items = [] ∧
    (analyze_receipt APP_CONFIG_default [] VALID_CATEGORIES_default none
        exEmptyOCR).gstin = (none, none) ∧
    (analyze_receipt APP_CONFIG_default [] VALID_CATEGORIES_default none
        exEmptyOCR).hsn = (none, none) ∧
    (analyze_receipt APP_CONFIG_default [] VALID_CATEGORIES_default none
        exEmptyOCR).currency = "$" ∧
    (analyze_receipt APP_CONFIG_default [] VALID_CATEGORIES_default none
        exEmptyOCR).overall_confidence = 0 ∧
    (analyze_receipt APP_CONFIG_default [] VALID_CATEGORIES_default none
        exEmptyOCR).category = "Uncategorized" ∧
    (analyze_receipt APP_CONFIG_default [] VALID_CATEGORIES_default none
        exEmptyOCR).status = "Needs Review" :=
  analyze_empty_documents_defaults APP_CONFIG_default [] VALID_CATEGORIES_default
    none exEmptyOCR rfl

/-- Claim C5 counterexample: with a configured threshold of 0 and an OCR
result containing no documents, the returned record's confidence (0)
reaches the threshold yet the status is not `"Approved"` — the claimed
"Approved iff confidence ≥ threshold" equivalence fails for this
invocation. -/
theorem status_threshold_iff_counterexample :
    ((analyze_receipt exZeroThresholdConfig [] VALID_CATEGORIES_default none
        exEmptyOCR).overall_confidence : ℚ) ≥
      exZeroThresholdConfig.confidence_threshold ∧
    (analyze_receipt exZeroThresholdConfig [] VALID_CATEGORIES_default none
        exEmptyOCR).status ≠ "Approved" := by
  constructor
  · show ((0 : ℤ) : ℚ) ≥ 0
    norm_num
  · decide

/-- Claim C5 amended: for every pipeline invocation whose OCR result
contains at least one document, the status is `"Approved"` iff the
overall confidence reaches the configured threshold (equality yields
Approved), and otherwise it is `"Needs Review"`; for a result with no
documents the status is always `"Needs Review"` regardless of the
threshold. -/
theorem status_threshold_iff (cfg : Config)
    (rules : List (String × List String)) (valid : List String)
    (ai : Option (Except Unit String)) (r : OCRResult) :
    (∀ doc rest, r.documents = doc :: rest →
      (((analyze_receipt cfg rules valid ai r).status = "Approved" ↔
        ((analyze_receipt cfg rules valid ai r).overall_confidence : ℚ) ≥
          cfg.confidence_threshold) ∧
       ((analyze_receipt cfg rules valid ai r).status = "Approved" ∨
        (analyze_receipt cfg rules valid ai r).status = "Needs Review"))) ∧
    (r.documents = [] →
      (analyze_receipt cfg rules valid ai r).status = "Needs Review") := by
  obtain ⟨docs, content⟩ := r
  constructor
  · intro doc rest h
    simp only at h
    subst h
    simp only [analyze_receipt]
    by_cases hc :
        ((calculate_overall_confidence cfg.confidence_weights
          (extractRecord doc content).fieldMap : ℤ) : ℚ) ≥ cfg.confidence_threshold
    · rw [if_pos hc]
      exact ⟨⟨fun _ => hc, fun _ => rfl⟩, Or.inl rfl⟩
    · rw [if_neg hc]
      exact ⟨⟨fun hs => absurd hs (by decide), fun hge => absurd hge hc⟩,
        Or.inr rfl⟩
  · intro h
    simp only at h
    subst h
    rfl

/-- Closed instance of `status_threshold_iff`: a single-document result
under the default configuration. -/
theorem status_threshold_iff_witness :
    ((analyze_receipt APP_CONFIG_default [] VALID_CATEGORIES_default none
        exTotOCR).status = "Approved" ↔
      ((analyze_receipt APP_CONFIG_default [] VALID_CATEGORIES_default none
        exTotOCR).overall_confidence : ℚ) ≥
        APP_CONFIG_default.confidence_threshold) ∧
    ((analyze_receipt APP_CONFIG_default [] VALID_CATEGORIES_default none
        exTotOCR).status = "Approved" ∨
     (analyze_receipt APP_CONFIG_default [] VALID_CATEGORIES_default none
        exTotOCR).status = "Needs Review") :=
  (status_threshold_iff APP_CONFIG_default [] VALID_CATEGORIES_default none
    exTotOCR).1 exDocTot [] rfl

unseal Rat.add Rat.mul Rat.inv Rat.sub in
/-- Claim C10: absent weighted fields are not treated uniformly.  An absent
`TransactionDate` is stored as `(None, None)` and so is excluded from the
weighted average, while an absent `MerchantName` / `Total` / `TotalTax`
is stored as `(None, 0.0)` and a configured weight for it still enters
the denominator with confidence 0, lowering the overall score — on the
single-`Total` fixture the score is 55 with the default weights, against
90 when the `merchant_name` weight is removed. -/
theorem absent_field_confidence_asymmetry :
    (∀ (cfg : Config) (rules : List (String × List String))
        (valid : List String) (ai : Option (Except Unit String))
        (r : OCRResult) (doc : Doc) (rest : List Doc),
      r.documents = doc :: rest →
      (lookupField doc "TransactionDate" = none →
        (analyze_receipt cfg rules valid ai r).transaction_date =
          (none, none)) ∧
      (lookupField doc "MerchantName" = none →
        (analyze_receipt cfg rules valid ai r).merchant_name =
          (none, some 0)) ∧
      (lookupField doc "Total" = none →
        (analyze_receipt cfg rules valid ai r).total = (none, some 0)) ∧
      (lookupField doc "TotalTax" = none →
        (analyze_receipt cfg rules valid ai r).tax_amount = (none, some 0))) ∧
    ((analyze_receipt APP_CONFIG_default [] VALID_CATEGORIES_default none
        exTotOCR).overall_confidence = 55 ∧
     calculate_overall_confidence
        (APP_CONFIG_default.confidence_weights.filter
          (fun fw => !(fw.1 == "merchant_name")))
        (analyze_receipt APP_CONFIG_default [] VALID_CATEGORIES_default none
          exTotOCR).fieldMap = 90) := by
  constructor
  · intro cfg rules valid ai r doc rest h
    obtain ⟨docs, content⟩ := r
    simp only at h
    subst h
    refine ⟨?_, ?_, ?_, ?_⟩ <;> intro hf <;>
      simp only [analyze_receipt, extractRecord, transactionDatePair,
        get_field_value, sourceGet, hf]
  · exact ⟨by decide, by decide⟩

/-- Closed instance of `absent_field_confidence_asymmetry` on the
single-`Total` fixture, whose `TransactionDate` and `MerchantName`
fields are absent. -/
theorem absent_field_confidence_asymmetry_witness :
    (analyze_receipt APP_CONFIG_default [] VALID_CATEGORIES_default none
        exTotOCR).transaction_date = (none, none) ∧
    (analyze_receipt APP_CONFIG_default [] VALID_CATEGORIES_default none
        exTotOCR).merchant_name = (none, some 0) :=
  ⟨(absent_field_confidence_asymmetry.1 APP_CONFIG_default []
      VALID_CATEGORIES_default none exTotOCR exDocTot [] rfl).1 rfl,
   (absent_field_confidence_asymmetry.1 APP_CONFIG_default []
      VALID_CATEGORIES_default none exTotOCR exDocTot [] rfl).2.1 rfl⟩

lemma regexPair_snd (r : Option String) : (regexPair r).2 = none := by
  unfold regexPair
  rcases r with _ | g
  · rfl
  · by_cases h : g = "" <;> simp [h]

lemma gstinAddrSearch_snd (doc : Doc) (g0 : Option String × Option ℚ) :
    (gstinAddrSearch doc g0).2 = g0.2 ∨
      (gstinAddrSearch doc g0).2 = some 85 := by
  unfold gstinAddrSearch
  split
  · split
    · split
      · split
        · exact Or.inl rfl
        · exact Or.inr rfl
      · exact Or.inl rfl
    · exact Or.inl rfl
  · exact Or.inl rfl

lemma gstinFallback_snd (doc : Doc) (g0 : Option String × Option ℚ) :
    (gstinFallback doc g0).2 = g0.2 ∨ (gstinFallback doc g0).2 = some 85 := by
  unfold gstinFallback
  split
  · split
    · exact gstinAddrSearch_snd doc g0
    · exact Or.inl rfl
  · exact gstinAddrSearch_snd doc g0

lemma fieldMap_gstin_skip (d : ParsedData) (hnone : d.gstin.2 = none)
    (acc : ℚ × ℚ) (fw : String × ℚ) (hb : fw.1 == "gstin") :
    confStep d.fieldMap acc fw = acc := by
  have h1 : fw.1 = "gstin" := eq_of_beq hb
  unfold confStep
  rw [h1]
  simp [ParsedData.fieldMap, List.find?, hnone]

lemma foldl_confStep_drop_gstin (d : ParsedData) (hnone : d.gstin.2 = none) :
    ∀ (w : List (String × ℚ)) (acc : ℚ × ℚ),
      w.foldl (confStep d.fieldMap) acc =
        (w.filter (fun fw => !(fw.1 == "gstin"))).foldl
          (confStep d.fieldMap) acc := by
  intro w
  induction w with
  | nil => intro acc; rfl
  | cons fw rest ih =>
    intro acc
    rw [List.foldl_cons, List.filter_cons]
    by_cases hb : fw.1 == "gstin"
    · rw [fieldMap_gstin_skip d hnone acc fw hb]
      simp only [hb, Bool.not_true, if_false, Bool.false_eq_true]
      exact ih acc
    · have hb2 : (!(fw.1 == "gstin")) = true := by
        simp only [Bool.not_eq_true']
        exact Bool.of_not_eq_true hb
      rw [if_pos hb2, List.foldl_cons]
      exact ih (confStep d.fieldMap acc fw)

unseal Rat.add Rat.mul Rat.inv Rat.sub in
/-- Claim C3 counterexample: on the merchant-address-fallback fixture with
the default weight configuration (which weights `gstin` at 0.20), the
pipeline's overall confidence is 49, while recomputing the aggregate with
the `gstin` weight removed gives 38 — so the gstin field does contribute
to the weighted average in this invocation. -/
theorem gstin_weight_contribution_counterexample :
    (analyze_receipt APP_CONFIG_default [] VALID_CATEGORIES_default none
        exAddrOCR).overall_confidence = 49 ∧
    calculate_overall_confidence
        (APP_CONFIG_default.confidence_weights.filter
          (fun fw => !(fw.1 == "gstin")))
        (analyze_receipt APP_CONFIG_default [] VALID_CATEGORIES_default none
          exAddrOCR).fieldMap = 38 ∧
    (analyze_receipt APP_CONFIG_default [] VALID_CATEGORIES_default none
        exAddrOCR).overall_confidence ≠
      calculate_overall_confidence
        (APP_CONFIG_default.confidence_weights.filter
          (fun fw => !(fw.1 == "gstin")))
        (analyze_receipt APP_CONFIG_default [] VALID_CATEGORIES_default none
          exAddrOCR).fieldMap := by
  exact ⟨by decide, by decide, by decide⟩

unseal Rat.add Rat.mul Rat.inv Rat.sub in
/-- Claim C3 amended: the gstin field contributes nothing to the overall
confidence whenever its stored confidence is `None` — which is the case
for every GSTIN recovered from the full document text — but a GSTIN
recovered through the merchant-address fallback is stored with confidence
85 and, when `gstin` carries a configured weight (as in the default
configuration), it does enter both the numerator and the denominator:
the stored gstin confidence is always `None` or 85, and on the
address-fallback fixture the score is 49 with the gstin weight against
38 without it. -/
theorem gstin_confidence_contribution :
    (∀ (weights : List (String × ℚ)) (d : ParsedData), d.gstin.2 = none →
      calculate_overall_confidence weights d.fieldMap =
        calculate_overall_confidence
          (weights.filter (fun fw => !(fw.1 == "gstin"))) d.fieldMap) ∧
    (∀ (cfg : Config) (rules : List (String × List String))
        (valid : List String) (ai : Option (Except Unit String))
        (r : OCRResult),
      (analyze_receipt cfg rules valid ai r).gstin.2 = none ∨
      (analyze_receipt cfg rules valid ai r).gstin.2 = some 85) ∧
    ((analyze_receipt APP_CONFIG_default [] VALID_CATEGORIES_default none
        exAddrOCR).gstin.2 = some 85 ∧
     (analyze_receipt APP_CONFIG_default [] VALID_CATEGORIES_default none
        exAddrOCR).overall_confidence = 49 ∧
     calculate_overall_confidence
        (APP_CONFIG_default.confidence_weights.filter
          (fun fw => !(fw.1 == "gstin")))
        (analyze_receipt APP_CONFIG_default [] VALID_CATEGORIES_default none
          exAddrOCR).fieldMap = 38) := by
  refine ⟨?_, ?_, by decide, by decide, by decide⟩
  · intro weights d hnone
    unfold calculate_overall_confidence
    rw [foldl_confStep_drop_gstin d hnone]
  · intro cfg rules valid ai r
    obtain ⟨docs, content⟩ := r
    rcases docs with _ | ⟨doc, rest⟩
    · exact Or.inl rfl
    · show (gstinFallback doc _).2 = none ∨ (gstinFallback doc _).2 = some 85
      rcases gstinFallback_snd doc
          (regexPair (extract_custom_fields content).1) with h | h
      · rw [h, regexPair_snd]
        exact Or.inl rfl
      · exact Or.inr h

/-- Closed instance of `gstin_confidence_contribution`: with a `None`
gstin confidence the aggregate is unchanged by removing the gstin
weight. -/
theorem gstin_confidence_contribution_witness :
    calculate_overall_confidence APP_CONFIG_default.confidence_weights
        initParsed.fieldMap =
      calculate_overall_confidence
        (APP_CONFIG_default.confidence_weights.filter
          (fun fw => !(fw.1 == "gstin"))) initParsed.fieldMap :=
  gstin_confidence_contribution.1 APP_CONFIG_default.confidence_weights
    initParsed rfl

unseal Rat.add Rat.mul Rat.inv Rat.sub in
/-- Claim C6: `determine_currency` resolves the symbol by a strict priority
order with first success winning — explicit `Total` ISO code, then a
known code inside the `Total` raw content, then the `CountryRegion`
table, then the all-digit-prefixed 15-character GSTIN, then an
`INDIA`/`IND` address keyword, then the fixed `"$"` default — and a
document with an explicit `INR` code and a `USA` address resolves to the
Indian symbol. -/
theorem determine_currency_priority :
    (∀ (doc : Doc) (g : Option String) (sym : String),
      currencyFromTotalCode doc = some sym →
        determine_currency doc g = sym) ∧
    (∀ (doc : Doc) (g : Option String) (sym : String),
      currencyFromTotalCode doc = none →
      currencyFromTotalContent doc = some sym →
        determine_currency doc g = sym) ∧
    (∀ (doc : Doc) (g : Option String) (sym : String),
      currencyFromTotalCode doc = none →
      currencyFromTotalContent doc = none →
      currencyFromCountry doc = some sym →
        determine_currency doc g = sym) ∧
    (∀ (doc : Doc) (g : Option String) (sym : String),
      currencyFromTotalCode doc = none →
      currencyFromTotalContent doc = none →
      currencyFromCountry doc = none →
      currencyFromGstin g = some sym →
        determine_currency doc g = sym) ∧
    (∀ (doc : Doc) (g : Option String) (sym : String),
      currencyFromTotalCode doc = none →
      currencyFromTotalContent doc = none →
      currencyFromCountry doc = none →
      currencyFromGstin g = none →
      currencyFromAddress doc = some sym →
        determine_currency doc g = sym) ∧
    (∀ (doc : Doc) (g : Option String),
      currencyFromTotalCode doc = none →
      currencyFromTotalContent doc = none →
      currencyFromCountry doc = none →
      currencyFromGstin g = none →
      currencyFromAddress doc = none →
        determine_currency doc g = "$") ∧
    determine_currency exDocINR none = "₹" := by
  refine ⟨?_, ?_, ?_, ?_, ?_, ?_, by decide⟩
  · intro doc g sym h1
    simp only [determine_currency, h1]
  · intro doc g sym h1 h2
    simp only [determine_currency, h1, h2]
  · intro doc g sym h1 h2 h3
    simp only [determine_currency, h1, h2, h3]
  · intro doc g sym h1 h2 h3 h4
    simp only [determine_currency, h1, h2, h3, h4]
  · intro doc g sym h1 h2 h3 h4 h5
    simp only [determine_currency, h1, h2, h3, h4, h5]
  · intro doc g h1 h2 h3 h4 h5
    simp only [determine_currency, h1, h2, h3, h4, h5]

unseal Rat.add Rat.mul Rat.inv Rat.sub in
/-- Closed instances of `determine_currency_priority`: the explicit-code
fixture resolves through priority 1, and a fieldless document falls to
the default. -/
theorem determine_currency_priority_witness :
    determine_currency exDocINR none = "₹" ∧
    determine_currency ([] : Doc) none = "$" :=
  ⟨determine_currency_priority.1 exDocINR none "₹" (by decide),
   determine_currency_priority.2.2.2.2.2.1 ([] : Doc) none rfl rfl rfl rfl rfl⟩

lemma ruleMatch_any (rules : List (String × List String)) (m : String)
    (c : String) (h : ruleMatch rules m = some c) :
    rules.any (fun r => r.1 == c) = true := by
  induction rules with
  | nil => cases h
  | cons r rest ih =>
    obtain ⟨cat, kws⟩ := r
    unfold ruleMatch at h
    by_cases hk : kws.any (fun k => containsSub m.data (pyUpper k).data)
    · rw [if_pos hk] at h
      obtain rfl : cat = c := Option.some.inj h
      simp
    · rw [if_neg hk] at h
      simp [ih h]

lemma aiCategorize_mem (valid : List String)
    (ai : Option (Except Unit String)) :
    valid.contains (aiCategorize valid ai) = true ∨
      aiCategorize valid ai = "Uncategorized" := by
  unfold aiCategorize
  rcases ai with _ | e
  · exact Or.inr rfl
  · rcases e with e | t
    · exact Or.inr rfl
    · by_cases h : valid.contains (cleanReply t)
      · exact Or.inl (by simp only [h, if_true])
      · exact Or.inr (by simp only [h, if_false, Bool.false_eq_true])

/-- Claim C7 counterexample: a configured rule whose category `"Travel"` is
not in the valid-category set is returned verbatim by
`categorize_receipt`, so the result is not always a member of the
configured valid-category set. -/
theorem categorize_rule_category_counterexample :
    categorize_receipt [("Travel", ["UBER"])] VALID_CATEGORIES_default none
        exUberRecord = "Travel" ∧
    VALID_CATEGORIES_default.contains "Travel" = false :=
  ⟨by decide, by decide⟩

/-- Claim C7 amended: `categorize_receipt` always returns either a category
named by the loaded rule configuration (returned verbatim when its
keyword matches, without a membership check) or a member of the
valid-category set or the sentinel `"Uncategorized"`; in particular, when
every rule category is in the valid set and the sentinel is a member
(as in the built-in defaults), the result is always a member of the
valid-category set. -/
theorem categorize_membership (rules : List (String × List String))
    (valid : List String) (ai : Option (Except Unit String))
    (data : ParsedData) :
    (rules.any (fun r => r.1 == categorize_receipt rules valid ai data) =
        true ∨
     valid.contains (categorize_receipt rules valid ai data) = true ∨
     categorize_receipt rules valid ai data = "Uncategorized") ∧
    (rules.all (fun r => valid.contains r.1) = true →
     valid.contains "Uncategorized" = true →
     valid.contains (categorize_receipt rules valid ai data) = true) := by
  constructor
  · unfold categorize_receipt
    rcases hr : ruleMatch rules (merchantKey data) with _ | c
    · rcases aiCategorize_mem valid ai with h | h
      · exact Or.inr (Or.inl h)
      · exact Or.inr (Or.inr h)
    · exact Or.inl (ruleMatch_any rules (merchantKey data) c hr)
  · intro hall hdef
    unfold categorize_receipt
    rcases hr : ruleMatch rules (merchantKey data) with _ | c
    · rcases aiCategorize_mem valid ai with h | h
      · exact h
      · rw [h]; exact hdef
    · have hany := ruleMatch_any rules (merchantKey data) c hr
      rw [List.any_eq_true] at hany
      obtain ⟨r, hmem, hbeq⟩ := hany
      rw [List.all_eq_true] at hall
      have := hall r hmem
      rwa [eq_of_beq hbeq] at this

/-- Closed instance of `categorize_membership`: with the default valid
set and an in-set rule category, the result is a member. -/
theorem categorize_membership_witness :
    VALID_CATEGORIES_default.contains
      (categorize_receipt [("Utilities", ["City Power"])]
        VALID_CATEGORIES_default none exCityPowerRecord) = true :=
  (categorize_membership [("Utilities", ["City Power"])]
    VALID_CATEGORIES_default none exCityPowerRecord).2 (by decide) (by decide)

/-- Claim C9: `categorize_receipt` never propagates a failure — when no
rule matches, an unconfigured AI service, a raising AI call, and an AI
reply whose cleaned text is not an exact member of the valid-category
list all yield the default sentinel `"Uncategorized"`. -/
theorem categorize_never_fails (rules : List (String × List String))
    (valid : List String) (ai : Option (Except Unit String))
    (data : ParsedData)
    (hr : ruleMatch rules (merchantKey data) = none) :
    (ai = none → categorize_receipt rules valid ai data = "Uncategorized") ∧
    (∀ e : Unit, ai = some (.error e) →
      categorize_receipt rules valid ai data = "Uncategorized") ∧
    (∀ t : String, ai = some (.ok t) →
      valid.contains (cleanReply t) = false →
      categorize_receipt rules valid ai data = "Uncategorized") := by
  unfold categorize_receipt
  rw [hr]
  refine ⟨?_, ?_, ?_⟩
  · intro h; subst h; rfl
  · intro e h; subst h; rfl
  · intro t h hv
    subst h
    unfold aiCategorize
    simp only [hv, if_false, Bool.false_eq_true]

/-- Closed instances of `categorize_never_fails`: no rules, AI absent;
and no rules with an off-list AI reply. -/
theorem categorize_never_fails_witness :
    categorize_receipt [] VALID_CATEGORIES_default none initParsed =
      "Uncategorized" ∧
    categorize_receipt [] VALID_CATEGORIES_default
        (some (.ok "Travel Expenses")) initParsed = "Uncategorized" :=
  ⟨(categorize_never_fails [] VALID_CATEGORIES_default none initParsed
      rfl).1 rfl,
   (categorize_never_fails [] VALID_CATEGORIES_default
      (some (.ok "Travel Expenses")) initParsed rfl).2.2 "Travel Expenses"
      rfl (by decide)⟩

lemma sanitize_gstin_length (c : String) (g : String)
    (h : sanitize_gstin c = some g) : g.length = 15 := by
  unfold sanitize_gstin at h
  by_cases hc : c = ""
  · simp [hc] at h
  · rw [if_neg hc] at h
    by_cases hl : (gstinStrip c).length ≠ 15
    · simp [hl] at h
    · rw [if_neg hl] at h
      obtain rfl := Option.some.inj h
      show (_ : List Char).length = 15
      split
      · simpa using not_ne_iff.mp hl
      · exact not_ne_iff.mp hl

lemma sanitize_gstin_ne_empty (c : String) (g : String)
    (h : sanitize_gstin c = some g) : g ≠ "" := by
  intro he
  have := sanitize_gstin_length c g h
  rw [he] at this
  simp at this

lemma gstinFromLabel_ne_empty (s : List Char) (g : String)
    (h : gstinFromLabel s = some g) : g ≠ "" := by
  unfold gstinFromLabel at h
  rcases hl : labelSearch s with _ | tok
  · rw [hl] at h; cases h
  · rw [hl] at h
    exact sanitize_gstin_ne_empty _ _ h

lemma extract_custom_fields_ne_empty (t : String) (g : String)
    (h : (extract_custom_fields t).1 = some g) : g ≠ "" := by
  replace h : gstinFinal t.data = some g := h
  unfold gstinFinal at h
  by_cases ht : gstinTruthy (gstinFromLabel t.data)
  · rw [if_pos ht] at h
    exact gstinFromLabel_ne_empty _ _ h
  · rw [if_neg ht] at h
    unfold gstinFromStruct at h
    rcases hs : structSearch t.data with _ | tok
    · rw [hs] at h
      exact gstinFromLabel_ne_empty _ _ h
    · rw [hs] at h
      exact sanitize_gstin_ne_empty _ _ h

unseal Rat.add Rat.mul Rat.inv Rat.sub in
/-- Claim C8: GSTIN extraction follows a fixed priority with first match
winning — a labeled match is tried first and its sanitized identifier
wins; the structural-shape search on the same text is consulted exactly
when the labeled route yields no identifier; and only when the
full-document text yields no identifier is extraction re-run on the
merchant-address value, the address result carrying the fixed lower
confidence 85 (while a full-text result carries no confidence). -/
theorem gstin_extraction_priority :
    (∀ (text : String) (tok : List Char) (g : String),
      labelSearch text.data = some tok →
      sanitize_gstin (String.mk tok) = some g →
      (extract_custom_fields text).1 = some g) ∧
    (∀ text : String,
      (labelSearch text.data = none ∨
       (∃ tok, labelSearch text.data = some tok ∧
         sanitize_gstin (String.mk tok) = none)) →
      (extract_custom_fields text).1 =
        (structSearch text.data).bind
          (fun tok => sanitize_gstin (String.mk tok))) ∧
    (∀ (cfg : Config) (rules : List (String × List String))
        (valid : List String) (ai : Option (Except Unit String))
        (r : OCRResult) (doc : Doc) (rest : List Doc) (g : String),
      r.documents = doc :: rest →
      (extract_custom_fields r.content).1 = some g →
      (analyze_receipt cfg rules valid ai r).gstin = (some g, none)) ∧
    (∀ (cfg : Config) (rules : List (String × List String))
        (valid : List String) (ai : Option (Except Unit String))
        (r : OCRResult) (doc : Doc) (rest : List Doc),
      r.documents = doc :: rest →
      (extract_custom_fields r.content).1 = none →
      ∀ (a : Value) (conf : Option ℚ) (cont : Option String) (g : String),
        lookupField doc "MerchantAddress" = some (.field (some a) conf cont) →
        a.truthy = true →
        (extract_custom_fields a.pyStr).1 = some g →
        (analyze_receipt cfg rules valid ai r).gstin = (some g, some 85)) := by
  refine ⟨?_, ?_, ?_, ?_⟩
  · intro text tok g h1 h2
    have hg : g ≠ "" := sanitize_gstin_ne_empty _ _ h2
    have hlab : gstinFromLabel text.data = some g := by
      unfold gstinFromLabel
      rw [h1]
      exact h2
    show gstinFinal text.data = some g
    unfold gstinFinal
    rw [hlab]
    simp [gstinTruthy, hg]
  · intro text hcase
    have hlab : gstinFromLabel text.data = none := by
      unfold gstinFromLabel
      rcases hcase with hl | ⟨tok, hl, hsan⟩
      · rw [hl]
      · rw [hl]
        exact hsan
    show gstinFinal text.data = _
    unfold gstinFinal gstinFromStruct
    rw [hlab]
    simp only [gstinTruthy, if_neg (by simp : ¬ (false : Bool) = true)]
    rcases hs : structSearch text.data with _ | tok2 <;> simp [hs]
  · intro cfg rules valid ai r doc rest g h h2
    obtain ⟨docs, content⟩ := r
    simp only at h h2
    subst h
    have hg : g ≠ "" := extract_custom_fields_ne_empty content g h2
    show gstinFallback doc (regexPair (extract_custom_fields content).1) =
      (some g, none)
    rw [h2]
    unfold regexPair gstinFallback
    simp [hg]
  · intro cfg rules valid ai r doc rest h h2 a conf cont g ha htr hg2
    obtain ⟨docs, content⟩ := r
    simp only at h h2
    subst h
    have hg : g ≠ "" := extract_custom_fields_ne_empty a.pyStr g hg2
    show gstinFallback doc (regexPair (extract_custom_fields content).1) =
      (some g, some 85)
    rw [h2]
    unfold regexPair gstinFallback gstinAddrSearch
    rw [ha]
    simp [htr, hg2, hg]

unseal Rat.add Rat.mul Rat.inv Rat.sub in
/-- Closed instances of `gstin_extraction_priority`: a labeled match in
full text wins, and the address fallback carries confidence 85. -/
theorem gstin_extraction_priority_witness :
    (extract_custom_fields "Invoice GSTIN: 29abcde1234fz25 total").1 =
      some "29ABCDE1234FZZ5" ∧
    (analyze_receipt APP_CONFIG_default [] VALID_CATEGORIES_default none
        exAddrOCR).gstin = (some "29ABCDE1234FZZ5", some 85) :=
  ⟨gstin_extraction_priority.1 "Invoice GSTIN: 29abcde1234fz25 total"
      ("29abcde1234fz25".data) "29ABCDE1234FZZ5" (by decide) (by decide),
   gstin_extraction_priority.2.2.2 APP_CONFIG_default []
      VALID_CATEGORIES_default none exAddrOCR exDocAddr [] rfl (by decide)
      (.str "12 Road GSTIN: 29ABCDE1234FZ25 India") (some (9/10)) none
      "29ABCDE1234FZZ5" rfl (by decide) (by decide)⟩

end ReceiptParser
